import Mathlib

/-!
Verification of the RAG (retrieval-augmented generation) backend:
document loading from object storage, chunking, vector-store lifecycle,
retrieval, and answer synthesis with citation extraction.

The JavaScript sources are embedded shallowly:
pure string processing becomes Lean functions on `String`/`List Char`;
the module-level mutable state of the vector-store service becomes an
explicit state record threaded through the operations; external oracles
(the S3 client, the PDF and DOCX parsers, the embedding scorer and the
generation model) become function parameters; thrown-and-caught errors
become `Except` values.
-/

/-! ## Data model -/

/-- Metadata attached to a langchain `Document`. -/
structure DocMetadata where
  source : Option String
  lastModified : Option Nat
  deriving DecidableEq, Repr

/-- A langchain `Document`: page content plus metadata. -/
structure RagDocument where
  pageContent : String
  metadata : DocMetadata
  deriving DecidableEq, Repr

/-- One entry of the `sources` array returned by `generateAnswer`. -/
structure SourceEntry where
  title : String
  content : String
  deriving DecidableEq, Repr

/-- The record returned by `generateAnswer`: answer text plus cited sources. -/
structure AnswerRecord where
  answer : String
  sources : List SourceEntry
  deriving DecidableEq, Repr

/-- Default document used to model JavaScript array indexing fallback;
indices are range-checked before use, so this value is never observed. -/
def defaultRagDocument : RagDocument := ⟨"", ⟨none, none⟩⟩

/-! ## openaiService.js -/

/-- The fixed system prompt from `createSystemPrompt`. -/
def createSystemPrompt : String :=
  "당신은 기업 내부 문서 기반 지식을 활용하여 질문에 답변하는 AI 어시스턴트입니다.\n다음 가이드라인을 따라주세요:\n\n1. 제공된 문서의 정보를 기반으로 정확하게 답변하세요.\n2. 문서에서 찾을 수 없는 정보에 대해서는 모른다고 솔직하게 말하세요.\n3. 답변 시 참조한 문서의 출처를 함께 제공하세요.\n4. 전문 용어나 복잡한 개념이 있다면 쉽게 설명해주세요.\n5. 공손하고 전문적인 어조를 유지하세요."

/-- The fixed apologetic answer returned when no relevant documents exist. -/
def apologyAnswer : String :=
  "죄송합니다. 질문과 관련된 정보를 찾을 수 없습니다. 다른 질문이나 키워드로 시도해 주세요."

/-- Whitespace class of the JavaScript regex escape used in the citation
pattern, restricted to the ASCII whitespace characters. -/
def jsWhitespace (c : Char) : Bool :=
  c == ' ' || c == '\t' || c == '\n' || c == '\r' ||
    c == Char.ofNat 11 || c == Char.ofNat 12

/-- Decimal value of a digit run, as computed by `parseInt` on a digit string. -/
def digitsVal (ds : List Char) : Nat :=
  ds.foldl (fun n c => n * 10 + (c.toNat - '0'.toNat)) 0

/-- Matcher for the tail of the citation regex after the first digit run:
zero or more repetitions of a comma, optional whitespace and a digit run,
followed by a closing bracket. The digit, comma, whitespace and bracket
classes are pairwise disjoint, so greedy matching without backtracking is
equivalent to the regex semantics. The fuel argument bounds the recursion;
each step consumes at least two characters, so the remaining length is
always sufficient fuel. -/
def matchTail : Nat → List Nat → List Char → Option (List Nat)
  | _, acc, ']' :: _ => some acc
  | fuel + 1, acc, ',' :: rest =>
    let rest2 := rest.dropWhile jsWhitespace
    let ds := rest2.takeWhile Char.isDigit
    if ds.isEmpty then none
    else matchTail fuel (acc ++ [digitsVal ds]) (rest2.dropWhile Char.isDigit)
  | _, _, _ => none

/-- Attempt to match the citation regex anchored at the head of the list:
an opening bracket, the literal marker word, at least one whitespace
character, then one or more comma-separated digit runs and a closing
bracket. Returns the parsed digit runs of the captured group. -/
def matchCitationAt (s : List Char) : Option (List Nat) :=
  match s with
  | '[' :: '문' :: '서' :: rest =>
    let sp := rest.takeWhile jsWhitespace
    let rest2 := rest.dropWhile jsWhitespace
    if sp.isEmpty then none
    else
      let ds := rest2.takeWhile Char.isDigit
      let rest3 := rest2.dropWhile Char.isDigit
      if ds.isEmpty then none
      else matchTail rest3.length [digitsVal ds] rest3
  | _ => none

/-- Leftmost match of the citation regex, as computed by `String.match`
with a non-global regex: try every start position from the left and
return the first successful match. -/
def firstCitation : List Char → Option (List Nat)
  | [] => none
  | c :: rest =>
    match matchCitationAt (c :: rest) with
    | some ns => some ns
    | none => firstCitation rest

/-- First 150 characters of a string, as in `substring(0, 150)`. -/
def first150 (s : String) : String := String.mk (s.toList.take 150)

/-- Build one entry of the sources array for a cited, range-checked index. -/
def sourceEntryFor (docs : List RagDocument) (i : Int) : SourceEntry :=
  let d := docs.getD i.toNat defaultRagDocument
  { title := d.metadata.source.getD ("문서 " ++ toString (i.toNat + 1)),
    content := first150 d.pageContent ++ "..." }

/-- Citation extraction from `generateAnswer`: take the first match of the
citation regex, convert each parsed number from 1-indexed to 0-indexed,
silently drop indices outside the document range, and map the survivors to
source entries in cited order. -/
def extractSources (answerText : String) (docs : List RagDocument) :
    List SourceEntry :=
  let ns := (firstCitation answerText.toList).getD []
  let sourceIndices : List Int := ns.map (fun n => (n : Int) - 1)
  (sourceIndices.filter
      (fun i => decide (0 ≤ i ∧ i < (docs.length : Int)))).map
    (sourceEntryFor docs)

/-- The per-document context lines of the grounding prompt, starting at
the given 0-based position. -/
def contextLines : Nat → List RagDocument → List String
  | _, [] => []
  | i, d :: ds =>
    ("문서 [" ++ toString (i + 1) ++ "] (출처: " ++
        d.metadata.source.getD ("문서 " ++ toString (i + 1)) ++ "):\n" ++
        d.pageContent ++ "\n") :: contextLines (i + 1) ds

/-- The grounding prompt sent to the generation oracle. -/
def buildPrompt (query : String) (docs : List RagDocument) : String :=
  "\n" ++ createSystemPrompt ++
    "\n\n다음은 당신이 질문에 답하기 위해 참조할 수 있는 관련 문서입니다:\n" ++
    String.intercalate "\n" (contextLines 0 docs) ++
    "\n\n사용자 질문: " ++ query ++
    "\n\n답변 형식:\n1. 질문에 직접적으로 답변해주세요.\n2. 답변 후 참조한 문서 번호를 [문서 1, 문서 3]과 같은 형식으로 제시해주세요.\n"

/-- `generateAnswer(query, relevantDocuments)` with the generation oracle
as an explicit parameter. The second component of the result counts how
many times the generation oracle was invoked. An absent document list
models a falsy `relevantDocuments` argument. -/
def generateAnswer (gen : String → String) (query : String)
    (relevantDocuments : Option (List RagDocument)) : AnswerRecord × Nat :=
  match relevantDocuments with
  | none => (⟨apologyAnswer, []⟩, 0)
  | some docs =>
    if docs.isEmpty then (⟨apologyAnswer, []⟩, 0)
    else
      let answerText := gen (buildPrompt query docs)
      (⟨answerText, extractSources answerText docs⟩, 1)

/-! ## Chunker

The text splitter itself (`RecursiveCharacterTextSplitter`) is provided by
an external library whose source is not part of this repository; only its
configuration (chunk size 500, overlap 200) appears in
`splitDocumentsIntoChunks`. -/

/-- Modelled from the spec: the splitting algorithm of the external
`RecursiveCharacterTextSplitter` is not included in the sources, so the
chunker is modelled from the specification of the Chunker component:
split the text of a unit into segments of at most `c` characters, with
consecutive segments within the same unit overlapping by `o` characters.
The fuel argument bounds the recursion; each step consumes at least one
character, so the length of the text is always sufficient fuel, and the
exhaustion branch returns the remaining text as a final chunk. -/
def chunkTextGo (c o : Nat) : Nat → List Char → List (List Char)
  | 0, s => [s]
  | fuel + 1, s =>
    if s.length ≤ c ∨ c ≤ o then [s]
    else s.take c :: chunkTextGo c o fuel (s.drop (c - o))

/-- Modelled from the spec: split a text into chunks of at most `c`
characters with `o` characters of overlap between consecutive chunks. -/
def chunkText (c o : Nat) (s : List Char) : List (List Char) :=
  chunkTextGo c o s.length s

/-- Remove the overlap from a chunk list: keep the first chunk whole and
drop the first `o` characters of every later chunk, then concatenate. -/
def recombine (o : Nat) : List (List Char) → List Char
  | [] => []
  | k :: ks => k ++ (ks.map (List.drop o)).flatten

/-- A chunk: text, metadata inherited from the parent unit, and a
0-based index scoped to that unit. -/
structure Chunk where
  text : String
  metadata : DocMetadata
  chunkIndex : Nat
  deriving DecidableEq, Repr

/-- Build chunk records for one unit from its split texts, numbering them
from the given starting index. -/
def chunkRecords (m : DocMetadata) : Nat → List (List Char) → List Chunk
  | _, [] => []
  | i, t :: ts => ⟨String.mk t, m, i⟩ :: chunkRecords m (i + 1) ts

/-- Modelled from the spec: the chunks of a single normalized unit, using
the configured chunk size 500 and overlap 200 from
`splitDocumentsIntoChunks`, with inherited metadata and a chunk index
scoped to the unit and starting at 0. -/
def unitChunks (u : RagDocument) : List Chunk :=
  chunkRecords u.metadata 0 (chunkText 500 200 u.pageContent.toList)

/-- `splitDocumentsIntoChunks(documents)`: chunk every unit and
concatenate the per-unit chunk lists. -/
def splitDocumentsIntoChunks (units : List RagDocument) : List Chunk :=
  (units.map unitChunks).flatten

/-- View a chunk as the langchain document stored in the vector index. -/
def chunkToDoc (ch : Chunk) : RagDocument := ⟨ch.text, ch.metadata⟩

/-! ## ragService.js: vector store lifecycle and retrieval -/

/-- State of the persisted on-disk vector store: the directory is absent,
or present but not loadable (for example the empty directory created at
server startup, or an incompatible serialization), or a loadable saved
index holding its chunk documents. -/
inductive DiskState where
  | absent : DiskState
  | unloadable : DiskState
  | saved : List RagDocument → DiskState
  deriving DecidableEq, Repr

/-- An in-memory vector store: the stored documents, queryable by
similarity search. The embedding vectors are abstracted away; similarity
scoring is an oracle parameter of the search. -/
structure MemStore where
  docs : List RagDocument
  deriving DecidableEq, Repr

/-- The module-level mutable state of `ragService.js`: the on-disk store
at `vectorDBPath` and the `vectorStore` variable (`none` models the
uninitialized or nulled variable). -/
structure RagState where
  disk : DiskState
  mem : Option MemStore
  deriving DecidableEq, Repr

/-- The sentinel document placed in the placeholder store built when zero
documents are found. -/
def sentinelDoc : RagDocument := ⟨"No documents available", ⟨none, none⟩⟩

/-- The placeholder in-memory store built when zero documents are found. -/
def placeholderStore : MemStore := ⟨[sentinelDoc]⟩

/-- Stable insertion of an element into a list sorted by descending key. -/
def insertDesc (key : α → Int) (a : α) : List α → List α
  | [] => [a]
  | b :: bs => if key b < key a then a :: b :: bs else b :: insertDesc key a bs

/-- Stable sort by descending key, modelling the similarity ordering of
the vector store search. -/
def sortByScoreDesc (key : α → Int) (l : List α) : List α :=
  l.foldr (insertDesc key) []

/-- `similaritySearch(query, k)` on an in-memory store: order the stored
documents by descending similarity score and take the first `k`. The
scoring function abstracts the embedding oracle and distance metric. -/
def similaritySearch (score : String → RagDocument → Int) (store : MemStore)
    (query : String) (k : Nat) : List RagDocument :=
  (sortByScoreDesc (score query) store.docs).take k

/-- `initializeVectorStore()`, with the documents returned by
`loadDocumentsFromS3` as a parameter. If a loadable persisted store
exists it is loaded; an unloadable one falls through to a rebuild. With
zero documents a placeholder store holding only the sentinel document is
built in memory, nothing is persisted, and `false` is returned. Otherwise
the documents are chunked, the index is built, persisted to disk, and
`true` is returned. -/
def initializeVectorStore (documents : List RagDocument) (st : RagState) :
    Bool × RagState :=
  match st.disk with
  | DiskState.saved ds => (true, { st with mem := some ⟨ds⟩ })
  | _ =>
    if documents.isEmpty then
      (false, { st with mem := some placeholderStore })
    else
      let chunkDocs := (splitDocumentsIntoChunks documents).map chunkToDoc
      (true, ⟨DiskState.saved chunkDocs, some ⟨chunkDocs⟩⟩)

/-- `retrieveRelevantDocuments(query, topK)`: initialize the vector store
first if the `vectorStore` variable is unset, then run the similarity
search against the active store. -/
def retrieveRelevantDocuments (score : String → RagDocument → Int)
    (documents : List RagDocument) (query : String) (topK : Nat)
    (st : RagState) : List RagDocument × RagState :=
  match st.mem with
  | some store => (similaritySearch score store query topK, st)
  | none =>
    let st1 := (initializeVectorStore documents st).2
    match st1.mem with
    | some store => (similaritySearch score store query topK, st1)
    | none => ([], st1)

/-- `reindexDocuments()`: remove the on-disk store if present (a no-op
when absent), null the `vectorStore` variable, rerun the full
initialization, and return the success flag with a message. -/
def reindexDocuments (documents : List RagDocument) (st : RagState) :
    (Bool × String) × RagState :=
  let stCleared : RagState := { st with disk := DiskState.absent, mem := none }
  let r := initializeVectorStore documents stCleared
  ((r.1,
    if r.1 then "문서 재색인화가 완료되었습니다." else "색인화할 문서가 없습니다."),
    r.2)

/-! ## server.js: controller layer -/

/-- Server-level state: the rag service state plus the `isInitialized`
flag read by the status endpoint. -/
structure ServerState where
  rag : RagState
  isInitialized : Bool
  deriving DecidableEq, Repr

/-- The reindex controller: run `reindexDocuments`, store its success
flag into `isInitialized`, and return the success flag and message. -/
def serverReindex (documents : List RagDocument) (sst : ServerState) :
    (Bool × String) × ServerState :=
  let r := reindexDocuments documents sst.rag
  (r.1, ⟨r.2, r.1.1⟩)

/-- The status controller: report the `isInitialized` flag. -/
def checkStatus (sst : ServerState) : Bool := sst.isInitialized

/-! ## s3Service.js and the ingestion loop of ragService.js -/

/-- An object listed from the bucket: key, size and last-modified stamp.
The content oracles below fetch its body. -/
structure S3Object where
  key : String
  size : Nat
  lastModified : Nat
  deriving DecidableEq, Repr

/-- External collaborators of the ingestion pass: fetching text content
and parsing a materialized PDF or DOCX file, each of which may fail. -/
structure S3Oracles where
  getContent : String → Except String String
  parsePdf : String → Except String (List RagDocument)
  parseDocx : String → Except String (List RagDocument)

/-- The basename of a key: the part after the last slash. -/
def basenameOf (key : String) : String :=
  String.mk ((key.toList.reverse.takeWhile (fun c => c != '/')).reverse)

/-- Lower-cased extension of a key, as `path.extname(key).toLowerCase()`:
the part of the basename from its last dot on, or empty when the basename
has no dot or only a leading dot. -/
def extnameOf (key : String) : String :=
  let base := (basenameOf key).toList
  let afterRev := base.reverse.takeWhile (fun c => c != '.')
  if afterRev.length = base.length then ""
  else if afterRev.length + 1 = base.length then ""
  else String.mk (('.' :: afterRev.reverse).map Char.toLower)

/-- The supported file extensions of the ingestion pass. -/
def supportedExtensions : List String := [".pdf", ".txt", ".md", ".docx", ".html"]

/-- The transient local path an object is downloaded to: a file named by
the basename of the key inside the temp directory (the directory itself
is left implicit; the file-system model below lists the file names
present in it). -/
def tempPathOf (key : String) : String := basenameOf key

/-- Process one listed object, threading the set of temp files currently
on disk. PDF and DOCX objects are downloaded to a transient local file
and parsed; the file is unlinked after a successful parse, while a parse
failure is caught and leaves the file in place. Text-like objects are
fetched directly. Every failure is caught and yields no documents. -/
def processObject (ora : S3Oracles) (obj : S3Object) (tempFs : List String) :
    List RagDocument × List String :=
  let ext := extnameOf obj.key
  if ext = ".pdf" then
    let t := tempPathOf obj.key
    let fs1 := if tempFs.contains t then tempFs else t :: tempFs
    match ora.parsePdf t with
    | Except.ok ds => (ds, if fs1.contains t then fs1.erase t else fs1)
    | Except.error _ => ([], fs1)
  else if ext = ".docx" then
    let t := tempPathOf obj.key
    let fs1 := if tempFs.contains t then tempFs else t :: tempFs
    match ora.parseDocx t with
    | Except.ok ds => (ds, if fs1.contains t then fs1.erase t else fs1)
    | Except.error _ => ([], fs1)
  else
    match ora.getContent obj.key with
    | Except.ok content =>
      ([⟨content, ⟨some obj.key, some obj.lastModified⟩⟩], tempFs)
    | Except.error _ => ([], tempFs)

/-- The ingestion loop over the listed objects, accumulating the loaded
documents and threading the temp-file state. -/
def processAll (ora : S3Oracles) : List S3Object → List String →
    List RagDocument × List String
  | [], tempFs => ([], tempFs)
  | obj :: objs, tempFs =>
    let r1 := processObject ora obj tempFs
    let r2 := processAll ora objs r1.2
    (r1.1 ++ r2.1, r2.2)

/-- `loadDocumentsFromS3()`: list the bucket objects with a supported
extension, then process each in turn. Returns the loaded documents and
the temp files remaining on disk. -/
def loadDocumentsFromS3 (ora : S3Oracles) (allObjects : List S3Object)
    (tempFs : List String) : List RagDocument × List String :=
  processAll ora
    (allObjects.filter (fun o => supportedExtensions.contains (extnameOf o.key)))
    tempFs

/-- The documents one object contributes, independent of the temp-file
state. -/
def docsOfObj (ora : S3Oracles) (obj : S3Object) : List RagDocument :=
  (processObject ora obj []).1

/-- Whether the processing of one object fails (its parse or fetch oracle
returns an error), so that the catch branch of the ingestion loop skips
it. -/
def failsOn (ora : S3Oracles) (obj : S3Object) : Bool :=
  let ext := extnameOf obj.key
  if ext = ".pdf" then
    match ora.parsePdf (tempPathOf obj.key) with
    | Except.ok _ => false
    | Except.error _ => true
  else if ext = ".docx" then
    match ora.parseDocx (tempPathOf obj.key) with
    | Except.ok _ => false
    | Except.error _ => true
  else
    match ora.getContent obj.key with
    | Except.ok _ => false
    | Except.error _ => true

/-! ## Concurrency model of the cold-start initialization

`handleQuestion` in server.js checks the `isInitialized` flag and, when
it is unset, awaits `ragService.initializeVectorStore()`. The check and
the synchronous prefix of the call run atomically, but the build work
behind the first await point (document loading, embedding, index
construction) completes later, and only then is the flag assigned. Two
concurrent requests are modelled as two callers, each advancing through
the program counter below; an arbitrary interleaving is a schedule of
caller steps. -/

/-- Program counter of one caller of the cold-start initialization:
before the flag check, suspended inside the awaited build, or finished. -/
inductive CallerPc where
  | start : CallerPc
  | building : CallerPc
  | done : CallerPc
  deriving DecidableEq, Repr

/-- Shared state of the race: the `isInitialized` flag, the number of
completed embedding-oracle build passes, and the two program counters. -/
structure RaceState where
  initialized : Bool
  buildPasses : Nat
  pc0 : CallerPc
  pc1 : CallerPc
  deriving DecidableEq, Repr

/-- Set the program counter of the chosen caller. -/
def setPc (i : Bool) (p : CallerPc) (s : RaceState) : RaceState :=
  if i then { s with pc1 := p } else { s with pc0 := p }

/-- One atomic step of the chosen caller. At `start` the caller reads the
flag: if set it finishes without building, otherwise it enters the
awaited build and suspends. At `building` the awaited work completes: one
embedding build pass is counted and the flag is assigned. -/
def raceStep (i : Bool) (s : RaceState) : RaceState :=
  match (if i then s.pc1 else s.pc0) with
  | CallerPc.start =>
    if s.initialized then setPc i CallerPc.done s
    else setPc i CallerPc.building s
  | CallerPc.building =>
    setPc i CallerPc.done
      { s with initialized := true, buildPasses := s.buildPasses + 1 }
  | CallerPc.done => s

/-- Run a schedule of caller steps from a state. -/
def runSchedule (sched : List Bool) (s : RaceState) : RaceState :=
  sched.foldl (fun s i => raceStep i s) s

/-- The cold-start state: flag unset, no builds, both callers waiting. -/
def coldStart : RaceState := ⟨false, 0, CallerPc.start, CallerPc.start⟩

/-- The racy interleaving: both callers check the flag before either
build completes. -/
def interleavedSchedule : List Bool := [false, true, false, true]

/-- A serialized interleaving: the first caller completes its build
before the second caller checks the flag. -/
def serializedSchedule : List Bool := [false, false, true]

/-! ## Concrete instances used in closed evaluations -/

/-- Two retrieved chunks, used as the length-2 retrieved list. -/
def demoDocs : List RagDocument :=
  [⟨"alpha", ⟨some "a.txt", some 1⟩⟩, ⟨"beta", ⟨some "b.txt", some 2⟩⟩]

/-- An answer text citing documents 1 and 3 in exactly the format the
grounding prompt instructs. -/
def answerPromptFormat : String := "답변입니다. [문서 1, 문서 3]"

/-- An answer text citing documents 1 and 3 in the single-marker form the
extraction regex accepts. -/
def answerRegexFormat : String := "답변입니다. [문서 1, 3]"

/-- Oracles whose binary-format parsers fail, modelling a corrupt file. -/
def corruptOracles : S3Oracles :=
  ⟨fun _ => Except.ok "본문 내용", fun _ => Except.error "corrupt file",
    fun _ => Except.error "corrupt file"⟩

/-- Oracles whose fetches and parses all succeed. -/
def okOracles : S3Oracles :=
  ⟨fun k => Except.ok ("content of " ++ k),
    fun p => Except.ok [⟨"pdf page", ⟨some p, none⟩⟩],
    fun p => Except.ok [⟨"docx body", ⟨some p, none⟩⟩]⟩

/-- A PDF object in the bucket. -/
def pdfObj : S3Object := ⟨"reports/q1.pdf", 1024, 10⟩

/-- A text object in the bucket. -/
def txtObjA : S3Object := ⟨"notes/a.txt", 10, 11⟩

/-- Another text object in the bucket. -/
def txtObjB : S3Object := ⟨"notes/b.txt", 12, 12⟩

/-- A short sample normalized unit. -/
def sampleDoc : RagDocument := ⟨"안녕하세요", ⟨some "hello.txt", some 3⟩⟩

/-- A constant similarity scorer used to instantiate score parameters. -/
def zeroScore : String → RagDocument → Int := fun _ _ => 0

/-! ## Helper lemmas for the chunker -/

/-- Dropping the overlap from every chunk and concatenating yields the
text with its first `o` characters dropped. -/
theorem flatten_drop_chunkTextGo (c o : Nat) (h : o ≤ c) :
    ∀ (fuel : Nat) (s : List Char),
      ((chunkTextGo c o fuel s).map (List.drop o)).flatten = s.drop o := by
  intro fuel
  induction fuel with
  | zero => intro s; simp [chunkTextGo]
  | succ fuel ih =>
    intro s
    rw [chunkTextGo]
    split
    · simp
    · rename_i hcond
      simp only [List.map_cons, List.flatten_cons, ih]
      rw [List.drop_drop, Nat.sub_add_cancel h]
      have h1 : List.drop o (List.take c s) = List.take (c - o) (List.drop o s) := by
        rw [List.take_drop, Nat.add_sub_cancel' h]
      have h2 : List.drop c s = List.drop (c - o) (List.drop o s) := by
        rw [List.drop_drop, Nat.add_sub_cancel' h]
      rw [h1, h2, List.take_append_drop]

/-- Recombining the chunks of a text with the overlap removed yields the
text back, for any fuel value. -/
theorem recombine_chunkTextGo (c o : Nat) (h : o < c) :
    ∀ (fuel : Nat) (s : List Char), recombine o (chunkTextGo c o fuel s) = s := by
  intro fuel
  cases fuel with
  | zero => intro s; simp [chunkTextGo, recombine]
  | succ fuel =>
    intro s
    rw [chunkTextGo]
    split
    · simp [recombine]
    · rw [recombine, flatten_drop_chunkTextGo c o (Nat.le_of_lt h),
        List.drop_drop, Nat.sub_add_cancel (Nat.le_of_lt h), List.take_append_drop]

/-- Every character of a recombined chunk list occurs in one of the chunks. -/
theorem exists_mem_of_mem_recombine (o : Nat) (ks : List (List Char)) (a : Char)
    (ha : a ∈ recombine o ks) : ∃ k ∈ ks, a ∈ k := by
  cases ks with
  | nil => simp [recombine] at ha
  | cons k ks =>
    rcases List.mem_append.mp ha with h | h
    · exact ⟨k, List.mem_cons_self k ks, h⟩
    · rcases List.mem_flatten.mp h with ⟨l, hl, hal⟩
      rcases List.mem_map.mp hl with ⟨k2, hk2, rfl⟩
      exact ⟨k2, List.mem_cons_of_mem k hk2, List.drop_subset _ _ hal⟩

/-- The number of chunk records of a unit equals the number of its split
texts. -/
theorem chunkRecords_length (m : DocMetadata) (ts : List (List Char)) :
    ∀ i, (chunkRecords m i ts).length = ts.length := by
  induction ts with
  | nil => intro i; rfl
  | cons t ts ih => intro i; simp [chunkRecords, ih]

/-- Every chunk record of a unit carries the metadata of the unit. -/
theorem chunkRecords_map_metadata (m : DocMetadata) (ts : List (List Char)) :
    ∀ i, (chunkRecords m i ts).map Chunk.metadata = List.replicate ts.length m := by
  induction ts with
  | nil => intro i; rfl
  | cons t ts ih => intro i; simp [chunkRecords, List.replicate_succ, ih]

/-- The chunk indices of a unit starting at `i` are the consecutive
naturals from `i`. -/
theorem chunkRecords_map_index (m : DocMetadata) (ts : List (List Char)) :
    ∀ i, (chunkRecords m i ts).map Chunk.chunkIndex =
      (List.range ts.length).map (i + ·) := by
  induction ts with
  | nil => intro i; rfl
  | cons t ts ih =>
    intro i
    simp only [chunkRecords, List.map_cons, ih, List.length_cons,
      List.range_succ_eq_map, List.map_map, Nat.add_zero]
    congr 1
    apply List.map_congr_left
    intro a _
    simp only [Function.comp_apply]
    omega

/-! ## Helper lemmas for the ingestion loop -/

/-- The documents contributed by one object do not depend on which temp
files are currently on disk. -/
theorem processObject_fst_const (ora : S3Oracles) (obj : S3Object)
    (fs fs2 : List String) :
    (processObject ora obj fs).1 = (processObject ora obj fs2).1 := by
  rw [processObject, processObject]
  by_cases h1 : extnameOf obj.key = ".pdf"
  · simp only [h1, if_pos]
    cases ora.parsePdf (tempPathOf obj.key) <;> rfl
  · by_cases h2 : extnameOf obj.key = ".docx"
    · simp only [h1, h2, if_neg, if_pos]
      cases ora.parseDocx (tempPathOf obj.key) <;> rfl
    · simp only [h1, h2, if_neg]
      cases ora.getContent obj.key <;> rfl

/-- The documents produced by the ingestion loop are the concatenation of
the per-object document lists. -/
theorem processAll_fst (ora : S3Oracles) :
    ∀ (objs : List S3Object) (fs : List String),
      (processAll ora objs fs).1 = (objs.map (docsOfObj ora)).flatten := by
  intro objs
  induction objs with
  | nil => intro fs; rfl
  | cons obj objs ih =>
    intro fs
    show (processObject ora obj fs).1 ++
        (processAll ora objs (processObject ora obj fs).2).1 = _
    rw [ih, List.map_cons, List.flatten_cons,
      processObject_fst_const ora obj fs []]
    rfl

/-- An object whose processing fails contributes no documents. -/
theorem docsOfObj_eq_nil_of_failsOn (ora : S3Oracles) (obj : S3Object)
    (h : failsOn ora obj = true) : docsOfObj ora obj = [] := by
  rw [failsOn] at h
  rw [docsOfObj, processObject]
  by_cases h1 : extnameOf obj.key = ".pdf"
  · simp only [h1, if_pos] at h ⊢
    cases hp : ora.parsePdf (tempPathOf obj.key) <;> simp_all [hp]
  · by_cases h2 : extnameOf obj.key = ".docx"
    · simp only [h1, h2, if_neg, if_pos] at h ⊢
      cases hp : ora.parseDocx (tempPathOf obj.key) <;> simp_all [hp]
    · simp only [h1, h2, if_neg] at h ⊢
      cases hp : ora.getContent obj.key <;> simp_all [hp]

/-! ## Claim theorems -/

/-- C1: evaluation of citation extraction at the failing input. With a
retrieved list of length 2, an answer text citing documents 1 and 3 in
exactly the repeated-marker format the grounding prompt instructs yields
an empty sources list, because the extraction regex only accepts a single
marker word before the comma-separated numbers; in the single-marker form
the regex does accept, the out-of-range citation 3 is dropped and the
sources list holds exactly the chunk at 0-indexed rank 0, with its
metadata source as title and its truncated text as excerpt. -/
theorem citation_extraction_prompt_format_mismatch :
    (generateAnswer (fun _ => answerPromptFormat) "질문" (some demoDocs)).1.sources
        = [] ∧
    (generateAnswer (fun _ => answerRegexFormat) "질문" (some demoDocs)).1.sources
        = [⟨"a.txt", "alpha..."⟩] := by
  exact ⟨rfl, rfl⟩

/-- C2 counterexample: a query against the placeholder index built when
zero documents were found returns the sentinel entry, not an empty
retrieval result. The state is cold, the corpus is empty, so the
placeholder store is built and then searched; the result is the sentinel
document and is non-empty. -/
theorem retrieve_placeholder_counterexample :
    (retrieveRelevantDocuments zeroScore [] "질문" 5 ⟨DiskState.absent, none⟩).1
        = [sentinelDoc] ∧
    ((retrieveRelevantDocuments zeroScore [] "질문" 5
        ⟨DiskState.absent, none⟩).1.isEmpty) = false := by
  exact ⟨rfl, rfl⟩

/-- C2 amended: for every scorer, corpus, query and positive `topK`, a
retrieve against the active placeholder index returns exactly the
sentinel entry rather than an empty result. -/
theorem retrieve_placeholder_returns_sentinel (score : String → RagDocument → Int)
    (documents : List RagDocument) (query : String) (k : Nat) (st : RagState)
    (hmem : st.mem = some placeholderStore) (hk : 1 ≤ k) :
    (retrieveRelevantDocuments score documents query k st).1 = [sentinelDoc] := by
  cases k with
  | zero => omega
  | succ n =>
    rw [retrieveRelevantDocuments, hmem]
    simp [similaritySearch, sortByScoreDesc, placeholderStore, insertDesc]

/-- C2 witness: the amended claim instantiated at the placeholder state
with the constant scorer and `topK = 5`. -/
theorem retrieve_placeholder_returns_sentinel_witness :
    (⟨DiskState.absent, some placeholderStore⟩ : RagState).mem
        = some placeholderStore ∧
    1 ≤ 5 ∧
    (retrieveRelevantDocuments zeroScore [] "질문" 5
        ⟨DiskState.absent, some placeholderStore⟩).1 = [sentinelDoc] :=
  ⟨rfl, by decide,
    retrieve_placeholder_returns_sentinel zeroScore [] "질문" 5
      ⟨DiskState.absent, some placeholderStore⟩ rfl (by decide)⟩

/-- C3: for every text and every overlap strictly less than the chunk
size, recombining the chunks with the overlap removed reconstructs the
original text, and every character of the text appears in at least one
chunk. -/
theorem chunking_covers_and_reconstructs (c o : Nat) (s : List Char) (h : o < c) :
    recombine o (chunkText c o s) = s ∧
    (s.all fun a => (chunkText c o s).any fun k => k.contains a) = true := by
  have hrec : recombine o (chunkText c o s) = s :=
    recombine_chunkTextGo c o h s.length s
  refine ⟨hrec, ?_⟩
  rw [List.all_eq_true]
  intro a ha
  rw [List.any_eq_true]
  have ha2 : a ∈ recombine o (chunkText c o s) := by rw [hrec]; exact ha
  rcases exists_mem_of_mem_recombine o _ a ha2 with ⟨k, hk, hak⟩
  exact ⟨k, hk, List.elem_eq_true_of_mem hak⟩

/-- C3 witness: reconstruction and coverage at chunk size 7, overlap 3,
on a 20-character text that splits into five chunks. -/
theorem chunking_covers_and_reconstructs_witness :
    3 < 7 ∧
    (recombine 3 (chunkText 7 3 "abcdefghijklmnopqrst".toList)
        = "abcdefghijklmnopqrst".toList ∧
      ("abcdefghijklmnopqrst".toList.all fun a =>
        (chunkText 7 3 "abcdefghijklmnopqrst".toList).any fun k =>
          k.contains a) = true) :=
  ⟨by decide,
    chunking_covers_and_reconstructs 7 3 "abcdefghijklmnopqrst".toList (by decide)⟩

/-- C4: the chunker output is the concatenation of the per-unit chunk
lists, every chunk of a unit inherits the metadata of that unit
unchanged, and the chunk indices within a unit are exactly
`0, 1, 2, ...`, hence strictly increasing from 0. -/
theorem chunk_metadata_and_index_invariant (units : List RagDocument)
    (u : RagDocument) :
    splitDocumentsIntoChunks units = (units.map unitChunks).flatten ∧
    (unitChunks u).map Chunk.metadata =
      List.replicate (unitChunks u).length u.metadata ∧
    (unitChunks u).map Chunk.chunkIndex = List.range (unitChunks u).length := by
  refine ⟨rfl, ?_, ?_⟩
  · rw [unitChunks, chunkRecords_length, chunkRecords_map_metadata]
  · rw [unitChunks, chunkRecords_length, chunkRecords_map_index]
    simp

/-- C5: with an absent or empty retrieved list, the answer synthesizer
returns the fixed apologetic answer with empty sources and invokes the
generation oracle zero times. -/
theorem generateAnswer_empty_short_circuit (gen : String → String)
    (query : String) (rd : Option (List RagDocument))
    (h : rd = none ∨ rd = some []) :
    generateAnswer gen query rd = (⟨apologyAnswer, []⟩, 0) := by
  rcases h with h | h <;> subst h <;> rfl

/-- C5 witness: the short circuit at an absent retrieved list. -/
theorem generateAnswer_empty_short_circuit_witness :
    ((none : Option (List RagDocument)) = none ∨
      (none : Option (List RagDocument)) = some []) ∧
    generateAnswer (fun _ => "임의 응답") "질문" none = (⟨apologyAnswer, []⟩, 0) :=
  ⟨Or.inl rfl,
    generateAnswer_empty_short_circuit (fun _ => "임의 응답") "질문" none (Or.inl rfl)⟩

/-- C6: evaluation of the ingestion pass at the failing input. When the
PDF parse of a downloaded object fails, the transient local file is left
on disk after the pass, while the same object with a succeeding parse
leaves no temp file behind: the cleanup runs only on the success path,
so the file is not released on the parse-failure exit path. -/
theorem temp_file_left_on_parse_failure :
    (loadDocumentsFromS3 corruptOracles [pdfObj] []).2 = ["q1.pdf"] ∧
    (loadDocumentsFromS3 okOracles [pdfObj] []).2 = [] := by
  exact ⟨rfl, rfl⟩

/-- C7: reindexing clears the persisted and in-memory stores and reruns
the full initialization regardless of the prior state, always returns a
non-empty message alongside the initialization success flag, and on an
empty corpus returns a failure flag with the fixed message and leaves the
status query reporting not-ready. -/
theorem reindex_empty_corpus_reports_not_ready (sst : ServerState) :
    (∀ documents : List RagDocument,
      ((serverReindex documents sst).1.2.isEmpty) = false ∧
      (serverReindex documents sst).2.rag =
        (initializeVectorStore documents ⟨DiskState.absent, none⟩).2 ∧
      (serverReindex documents sst).1.1 =
        (initializeVectorStore documents ⟨DiskState.absent, none⟩).1) ∧
    ((serverReindex [] sst).1.1 = false ∧
      (serverReindex [] sst).1.2 = "색인화할 문서가 없습니다." ∧
      checkStatus (serverReindex [] sst).2 = false) := by
  constructor
  · intro documents
    cases documents <;> exact ⟨rfl, rfl, rfl⟩
  · exact ⟨rfl, rfl, rfl⟩

/-- C8: a failure while processing one object is confined to that object:
the documents loaded from a listing containing the failing object are
exactly the documents of the objects before it followed by the documents
of the objects after it, for any temp-file state. -/
theorem load_skips_failing_document (ora : S3Oracles) (objs1 objs2 : List S3Object)
    (obj : S3Object) (tempFs : List String) (h : failsOn ora obj = true) :
    (loadDocumentsFromS3 ora (objs1 ++ obj :: objs2) tempFs).1 =
      (loadDocumentsFromS3 ora objs1 tempFs).1 ++
        (loadDocumentsFromS3 ora objs2 tempFs).1 := by
  rw [loadDocumentsFromS3, loadDocumentsFromS3, loadDocumentsFromS3,
    processAll_fst, processAll_fst, processAll_fst,
    List.filter_append, List.filter_cons]
  split
  · rw [List.map_append, List.map_cons, List.flatten_append, List.flatten_cons,
      docsOfObj_eq_nil_of_failsOn ora obj h]
    simp
  · rw [List.map_append, List.flatten_append]

/-- C8 witness: a corrupt PDF between two text objects is skipped and
both text objects are still loaded. -/
theorem load_skips_failing_document_witness :
    failsOn corruptOracles pdfObj = true ∧
    (loadDocumentsFromS3 corruptOracles [txtObjA, pdfObj, txtObjB] []).1 =
      (loadDocumentsFromS3 corruptOracles [txtObjA] []).1 ++
        (loadDocumentsFromS3 corruptOracles [txtObjB] []).1 :=
  ⟨rfl, load_skips_failing_document corruptOracles [txtObjA] [txtObjB] pdfObj [] rfl⟩

/-- C9 counterexample: under the interleaving in which both cold-start
callers check the initialization flag before either awaited build
completes, two embedding-oracle build passes occur, not exactly one. -/
theorem concurrent_init_counterexample :
    (runSchedule interleavedSchedule coldStart).buildPasses = 2 ∧
    ((runSchedule interleavedSchedule coldStart).buildPasses == 1) = false := by
  exact ⟨rfl, rfl⟩

/-- C9 amended: cold-start initialization is not serialized. When both
callers pass the flag check before either build completes, each runs a
full build pass (two embedding-oracle build passes, duplicate index
construction); a single build pass occurs only under an interleaving in
which one caller completes its build before the other caller checks the
flag. -/
theorem concurrent_init_build_passes :
    runSchedule interleavedSchedule coldStart
        = ⟨true, 2, CallerPc.done, CallerPc.done⟩ ∧
    runSchedule serializedSchedule coldStart
        = ⟨true, 1, CallerPc.done, CallerPc.done⟩ := by
  exact ⟨rfl, rfl⟩

/-- C10: an initialization that finds zero documents builds the
placeholder store in memory, reports failure, and leaves the persisted
on-disk state exactly as it was (whether absent or present-but-unloadable),
so a later fresh initialization finds no loadable persisted index from
it; conversely, whenever initialization changes the on-disk state, the
document list was non-empty. -/
theorem placeholder_index_not_persisted (documents : List RagDocument)
    (st : RagState) :
    (initializeVectorStore [] ⟨DiskState.absent, st.mem⟩ =
        (false, ⟨DiskState.absent, some placeholderStore⟩) ∧
      initializeVectorStore [] ⟨DiskState.unloadable, st.mem⟩ =
        (false, ⟨DiskState.unloadable, some placeholderStore⟩)) ∧
    ((initializeVectorStore documents st).2.disk ≠ st.disk →
      documents.isEmpty = false) := by
  refine ⟨⟨rfl, rfl⟩, ?_⟩
  intro hd
  cases documents with
  | nil =>
    exfalso
    apply hd
    cases hst : st.disk <;> simp [initializeVectorStore, hst]
  | cons d ds => rfl

/-- C10 witness: a non-empty corpus does change the on-disk state, and
its document list is indeed non-empty. -/
theorem placeholder_index_not_persisted_witness :
    (initializeVectorStore [sampleDoc] ⟨DiskState.absent, none⟩).2.disk
        ≠ DiskState.absent ∧
    ([sampleDoc] : List RagDocument).isEmpty = false :=
  ⟨by decide,
    (placeholder_index_not_persisted [sampleDoc] ⟨DiskState.absent, none⟩).2
      (by decide)⟩
